import Mathlib

/-!
Shallow embedding of `src/main.py` of the eternalai-mcp server, covering the
credential resolution (`get_api_key` / `set_api_key`), the smart polling loop
(`handle_smart_poll_result`), and the generate-response normalizer
(`parse_generate_response`).

Modelling conventions:
* JSON values are the inductive `Json` (null / bool / integer / string /
  object); response bodies are association lists `Dict` with Python's
  first-match `dict.get` semantics (`Dict.get?` / `dget`).
* Python `str(x)` is `pyStr`; `str` of a dict is modelled as a fixed
  brace-delimited placeholder (Python's repr always starts with a brace, so
  it is never one of the terminal status words, which is all the code
  observes about it).
* Each adapter interaction of one loop iteration is a `PollEvent`: a decoded
  JSON-object body, a non-JSON body (json() raises JSONDecodeError), a
  non-object JSON body (`data.get` raises AttributeError), an HTTP >= 400
  response (httpx.HTTPStatusError), or a transport failure
  (httpx.RequestError).
* Time is in whole seconds: `elapsed n` is the value `time.time() - start_time`
  computed at the top of iteration `n`.  The code sleeps `poll_interval`
  before the next iteration, which is expressed as a monotonicity hypothesis
  where a theorem needs it.
* The handler's observable behaviour is a `HandlerResult` (a returned
  `PollOutcome`, or an exception escaping the handler) together with the list
  of `Effect`s (sleeps and network calls) it performed.  The loop takes fuel;
  `none` means the fuel ran out before the loop returned.
-/

inductive Json where
  | null
  | bool (b : Bool)
  | num (n : Int)
  | str (s : String)
  | obj (fields : List (String × Json))

abbrev Dict := List (String × Json)

/-- First binding for a key, Python `dict` lookup (keys in a Python dict are
unique, so first-match is exact). -/
def Dict.get? (d : Dict) (k : String) : Option Json :=
  (d.find? (fun p => p.1 == k)).map (fun p => p.2)

/-- Python `data.get(k, default)`. -/
def dget (d : Dict) (k : String) (default : Json) : Json :=
  (Dict.get? d k).getD default

/-- Python `str(...)` on a JSON value.  `str` of a dict is a brace-delimited
repr; only the fact that it is never a bare status word matters here. -/
def pyStr : Json → String
  | .null => "None"
  | .bool b => if b then "True" else "False"
  | .num n => toString n
  | .str s => s
  | .obj _ => "\x7b...\x7d"

/-- Truthiness of a Python `str | None` value. -/
def truthy : Option String → Bool
  | none => false
  | some s => !(s == "")

/-- `main.py` line 340: `max_duration = 120`. -/
def max_duration : Nat := 120

/-- `main.py` line 341: `poll_interval = 15`. -/
def poll_interval : Nat := 15

/-- `main.py` line 337: the 30 second sleep before the first poll. -/
def initial_delay : Nat := 30

/-- `get_api_key` (main.py lines 35-40): the stored module-level key if
truthy, otherwise the `ETERNAL_AI_API_KEY` environment variable.
`stored` is the module global `_api_key`, `env` the environment lookup. -/
def get_api_key (stored env : Option String) : Option String :=
  if truthy stored then stored else env

/-- `set_api_key` (main.py lines 43-46): the module global `_api_key` after
the call. -/
def set_api_key (key : String) : Option String :=
  some key

/-- Result of one adapter interaction inside the polling loop. -/
inductive PollEvent where
  | ok (body : Dict)
  | badJson
  | nonObject (j : Json)
  | statusError (code : Nat) (text : String)
  | requestError (msg : String)

/-- The caller-visible outcomes `handle_smart_poll_result` can return. -/
inductive PollOutcome where
  | preconditionNoKey
  | preconditionNoRequestId
  | terminal (data : Dict)
  | timeoutPending (resp : Dict)
  | apiError (code : Nat) (text : String)
  | requestErrorAfterTimeout (msg : String)

/-- Exceptions that are not caught by the handler's `except` clauses. -/
inductive Escaped where
  | jsonDecodeError
  | attributeError (j : Json)

/-- Either a returned outcome or an exception escaping the handler. -/
inductive HandlerResult where
  | outcome (o : PollOutcome)
  | raised (e : Escaped)

/-- One loop iteration either finishes the handler or sleeps and retries. -/
inductive StepRes where
  | done (r : HandlerResult)
  | again

/-- Observable side effects of the handler. -/
inductive Effect where
  | sleep (secs : Nat)
  | netGet

/-- Python `.lower()`, as a structurally recursive character map (ASCII case
mapping; it agrees with Python on every status word the loop compares
against). -/
def pyLower (s : String) : String :=
  String.mk (s.data.map Char.toLower)

/-- main.py line 355: `status = str(data.get("status", "")).lower()`. -/
def normStatus (data : Dict) : String :=
  pyLower (pyStr (dget data "status" (Json.str "")))

/-- main.py line 356: `progress = data.get("progress", 0)`. -/
def progressOf (data : Dict) : Json :=
  dget data "progress" (Json.num 0)

/-- The four status words the loop treats as terminal (main.py 359, 363). -/
def isTerminalStatus (s : String) : Bool :=
  s == "success" || s == "completed" || s == "failed" || s == "error"

/-- Events whose bodies decode to a JSON object, or that are classified
transport/HTTP failures; exactly the events the `try/except` covers. -/
def isGoodEvent : PollEvent → Bool
  | .badJson => false
  | .nonObject _ => false
  | _ => true

/-- One iteration of the `while True` loop (main.py lines 344-391), given the
adapter interaction `ev` and the `elapsed` value computed at line 345. -/
def pollStep (rid : String) (ev : PollEvent) (elapsed : Nat) : StepRes :=
  match ev with
  | .badJson => .done (.raised .jsonDecodeError)
  | .nonObject j => .done (.raised (.attributeError j))
  | .statusError code text => .done (.outcome (.apiError code text))
  | .requestError msg =>
    if max_duration ≤ elapsed then .done (.outcome (.requestErrorAfterTimeout msg))
    else .again
  | .ok data =>
    if normStatus data == "success" || normStatus data == "completed" then
      .done (.outcome (.terminal data))
    else if normStatus data == "failed" || normStatus data == "error" then
      .done (.outcome (.terminal data))
    else if max_duration ≤ elapsed then
      .done (.outcome (.timeoutPending
        [("request_id", dget data "request_id" (Json.str rid)),
         ("status", dget data "status" (Json.str "pending")),
         ("progress", progressOf data),
         ("result_url", dget data "result_url" (Json.str "")),
         ("effect_type", dget data "effect_type" (Json.str "")),
         ("message", Json.str "Task is still processing, please call this tool again")]))
    else .again

/-- Effects of one iteration: the GET, plus the line 383/391 sleep when the
iteration does not return. -/
def stepEffects : StepRes → List Effect
  | .done _ => [Effect.netGet]
  | .again => [Effect.netGet, Effect.sleep poll_interval]

/-- Which way an iteration went, forgetting payloads. -/
def stepTag : StepRes → Nat
  | .again => 0
  | .done (.outcome (.terminal _)) => 1
  | .done (.outcome (.timeoutPending _)) => 2
  | .done (.outcome (.apiError _ _)) => 3
  | .done (.outcome (.requestErrorAfterTimeout _)) => 4
  | .done (.outcome .preconditionNoKey) => 5
  | .done (.outcome .preconditionNoRequestId) => 6
  | .done (.raised _) => 7

/-- The polling loop from iteration `n` with the given fuel.  `events m` and
`elapsed m` are the adapter interaction and elapsed seconds of iteration `m`. -/
def pollLoop (rid : String) (events : Nat → PollEvent) (elapsed : Nat → Nat) :
    Nat → Nat → Option HandlerResult × List Effect
  | 0, _ => (none, [])
  | fuel + 1, n =>
    match pollStep rid (events n) (elapsed n) with
    | .done r => (some r, stepEffects (.done r))
    | .again =>
      let rest := pollLoop rid events elapsed fuel (n + 1)
      (rest.1, stepEffects .again ++ rest.2)

/-- `handle_smart_poll_result` (main.py lines 312-391): credential check,
request-id check, 30 second initial sleep, then the polling loop. -/
def handle_smart_poll_result (stored env request_id : Option String)
    (events : Nat → PollEvent) (elapsed : Nat → Nat) (fuel : Nat) :
    Option HandlerResult × List Effect :=
  if truthy (get_api_key stored env) = false then
    (some (.outcome .preconditionNoKey), [])
  else if truthy request_id = false then
    (some (.outcome .preconditionNoRequestId), [])
  else
    let r := pollLoop (request_id.getD "") events elapsed fuel 0
    (r.1, Effect.sleep initial_delay :: r.2)

/-- `parse_generate_response` (main.py lines 439-462). -/
def parse_generate_response (data : Dict) : Dict :=
  match Dict.get? data "data" with
  | some (Json.obj nested) =>
    [("request_id", dget nested "request_id" (dget data "request_id" (Json.str ""))),
     ("status", dget nested "status" (Json.str "")),
     ("result", dget nested "result" (Json.str "")),
     ("progress", dget nested "progress" (Json.num 0)),
     ("status_code", (Dict.get? data "status").getD Json.null)]
  | _ =>
    [("request_id", dget data "request_id" (Json.str "")),
     ("status", dget data "status" (Json.str "")),
     ("result", dget data "result" (Json.str "")),
     ("progress", dget data "progress" (Json.num 0))]

/-- Credential use of `handle_get_visual_effects` (main.py lines 186-189):
the `x-api-key` header is attached only when `get_api_key` yields a truthy
value. -/
def handle_get_visual_effects_headers (stored env : Option String) :
    List (String × String) :=
  match get_api_key stored env with
  | some k => if k == "" then [] else [("x-api-key", k)]
  | none => []

/-- Whether a generate handler proceeds past its credential check, and with
which key. -/
inductive CredentialGate where
  | apiKeyMissing
  | proceed (key : String)

/-- Credential gate of `handle_generate_with_effect` (main.py lines 214-219). -/
def handle_generate_with_effect_gate (stored env : Option String) : CredentialGate :=
  match get_api_key stored env with
  | some k => if k == "" then .apiKeyMissing else .proceed k
  | none => .apiKeyMissing

/-- Credential gate of `handle_generate_custom_advanced` (main.py lines 263-268). -/
def handle_generate_custom_advanced_gate (stored env : Option String) : CredentialGate :=
  match get_api_key stored env with
  | some k => if k == "" then .apiKeyMissing else .proceed k
  | none => .apiKeyMissing

theorem get?_cons_of_ne (k kq : String) (v : Json) (d : Dict) (h : (k == kq) = false) :
    Dict.get? ((k, v) :: d) kq = Dict.get? d kq := by
  simp [Dict.get?, List.find?_cons_of_neg, h]

theorem pollStep_terminal (rid : String) (data : Dict) (el : Nat)
    (h : isTerminalStatus (normStatus data) = true) :
    pollStep rid (.ok data) el = .done (.outcome (.terminal data)) := by
  unfold isTerminalStatus at h
  cases h1 : (normStatus data == "success") <;>
    cases h2 : (normStatus data == "completed") <;>
      cases h3 : (normStatus data == "failed") <;>
        cases h4 : (normStatus data == "error") <;>
          simp_all [pollStep]

theorem pollStep_pending_of_lt (rid : String) (data : Dict) (el : Nat)
    (h : isTerminalStatus (normStatus data) = false) (hel : el < max_duration) :
    pollStep rid (.ok data) el = .again := by
  unfold isTerminalStatus at h
  cases h1 : (normStatus data == "success") <;>
    cases h2 : (normStatus data == "completed") <;>
      cases h3 : (normStatus data == "failed") <;>
        cases h4 : (normStatus data == "error") <;>
          simp_all [pollStep, Nat.not_le.mpr hel]

theorem pollStep_no_raise (rid : String) (ev : PollEvent) (el : Nat)
    (h : isGoodEvent ev = true) :
    ∀ e, pollStep rid ev el ≠ .done (.raised e) := by
  intro e
  cases ev with
  | badJson => simp [isGoodEvent] at h
  | nonObject j => simp [isGoodEvent] at h
  | statusError c t => simp [pollStep]
  | requestError m =>
    by_cases hel : max_duration ≤ el <;> simp [pollStep, hel]
  | ok data =>
    by_cases h1 : isTerminalStatus (normStatus data) = true
    · rw [pollStep_terminal rid data el h1]; simp
    · by_cases hel : max_duration ≤ el
      · unfold isTerminalStatus at h1
        cases e1 : (normStatus data == "success") <;>
          cases e2 : (normStatus data == "completed") <;>
            cases e3 : (normStatus data == "failed") <;>
              cases e4 : (normStatus data == "error") <;>
                simp_all [pollStep, hel]
      · rw [pollStep_pending_of_lt rid data el (by simpa using h1) (Nat.not_le.mp hel)]
        simp

theorem pollStep_done_of_deadline (rid : String) (ev : PollEvent) (el : Nat)
    (hg : isGoodEvent ev = true) (he : max_duration ≤ el) :
    ∃ o, pollStep rid ev el = .done (.outcome o) := by
  cases ev with
  | badJson => simp [isGoodEvent] at hg
  | nonObject j => simp [isGoodEvent] at hg
  | statusError c t => exact ⟨_, rfl⟩
  | requestError m =>
    exact ⟨PollOutcome.requestErrorAfterTimeout m, by simp [pollStep, he]⟩
  | ok data =>
    by_cases h1 : isTerminalStatus (normStatus data) = true
    · exact ⟨_, pollStep_terminal rid data el h1⟩
    · unfold isTerminalStatus at h1
      cases e1 : (normStatus data == "success") <;>
        cases e2 : (normStatus data == "completed") <;>
          cases e3 : (normStatus data == "failed") <;>
            cases e4 : (normStatus data == "error") <;>
              simp_all [pollStep, he]

/-- C1: a poll whose normalized status is terminal (success, completed,
failed, error) returns the terminal outcome even when elapsed time is already
at or past `max_duration`; it never yields the timeout-pending outcome,
because terminal classification (main.py 359-365) precedes the deadline check
(main.py 370) in the same iteration. -/
theorem terminal_status_beats_deadline (rid : String) (data : Dict) (el : Nat)
    (hel : max_duration ≤ el) (hterm : isTerminalStatus (normStatus data) = true) :
    pollStep rid (.ok data) el = .done (.outcome (.terminal data))
    ∧ ∀ D, pollStep rid (.ok data) el ≠ .done (.outcome (.timeoutPending D)) := by
  have h := pollStep_terminal rid data el hterm
  refine ⟨h, fun D hcon => ?_⟩
  rw [h] at hcon
  simp at hcon

/-- C1 witness: a poll answering `status: "SUCCESS"` exactly at the 120 s
deadline returns the terminal outcome. -/
theorem terminal_status_beats_deadline_witness :
    pollStep "req-1" (.ok [("status", Json.str "SUCCESS")]) 120
      = .done (.outcome (.terminal [("status", Json.str "SUCCESS")])) :=
  (terminal_status_beats_deadline "req-1" [("status", Json.str "SUCCESS")] 120
    (by decide) (by decide)).1

theorem pollLoop_returns (rid : String) (events : Nat → PollEvent) (elapsed : Nat → Nat)
    (hg : ∀ m, isGoodEvent (events m) = true) :
    ∀ fuel n, max_duration ≤ elapsed (n + fuel) →
      ∃ o, (pollLoop rid events elapsed (fuel + 1) n).1 = some (.outcome o) := by
  intro fuel
  induction fuel with
  | zero =>
    intro n he
    obtain ⟨o, ho⟩ := pollStep_done_of_deadline rid (events n) (elapsed n) (hg n) he
    exact ⟨o, by simp [pollLoop, ho]⟩
  | succ fuel ih =>
    intro n he
    cases hs : pollStep rid (events n) (elapsed n) with
    | done r =>
      cases r with
      | outcome o => exact ⟨o, by simp [pollLoop, hs]⟩
      | raised e => exact absurd hs (pollStep_no_raise rid (events n) (elapsed n) (hg n) e)
    | again =>
      obtain ⟨o, ho⟩ := ih (n + 1) (by
        have : n + 1 + fuel = n + (fuel + 1) := by omega
        rw [this]; exact he)
      refine ⟨o, ?_⟩
      rw [pollLoop, hs]
      simpa using ho

theorem elapsed_lower_bound (elapsed : Nat → Nat)
    (hmono : ∀ n, elapsed n + poll_interval ≤ elapsed (n + 1)) :
    ∀ n, n * poll_interval ≤ elapsed n := by
  intro n
  induction n with
  | zero => exact Nat.zero_le _
  | succ n ih =>
    have h1 := hmono n
    have h2 : (n + 1) * poll_interval = n * poll_interval + poll_interval :=
      Nat.succ_mul n poll_interval
    omega

/-- C2: under the timing model of the code (each non-returning iteration
sleeps `poll_interval`, so elapsed time advances by at least 15 s per
iteration), a single invocation of `handle_smart_poll_result` on any
sequence of well-formed adapter responses (successful JSON-object bodies,
transient transport errors, or HTTP status errors) terminates within
`max_duration / poll_interval + 1 = 9` loop iterations and returns exactly
one outcome. -/
theorem smart_poll_terminates (stored env request_id : Option String)
    (events : Nat → PollEvent) (elapsed : Nat → Nat)
    (hg : ∀ m, isGoodEvent (events m) = true)
    (hmono : ∀ n, elapsed n + poll_interval ≤ elapsed (n + 1)) :
    ∃ o, (handle_smart_poll_result stored env request_id events elapsed 9).1
      = some (.outcome o) := by
  cases hk : truthy (get_api_key stored env) with
  | false =>
    exact ⟨.preconditionNoKey, by simp [handle_smart_poll_result, hk]⟩
  | true =>
    cases hr : truthy request_id with
    | false =>
      exact ⟨.preconditionNoRequestId, by simp [handle_smart_poll_result, hk, hr]⟩
    | true =>
      have hd : max_duration ≤ elapsed (0 + 8) := by
        have h := elapsed_lower_bound elapsed hmono 8
        simp only [poll_interval] at h
        simp only [max_duration, Nat.zero_add]
        omega
      obtain ⟨o, ho⟩ :=
        pollLoop_returns (request_id.getD "") events elapsed hg 8 0 hd
      exact ⟨o, by simp [handle_smart_poll_result, hk, hr, ho]⟩

/-- C2 witness: with a credential stored, a pending-only adapter and 15 s per
iteration, the invocation returns an outcome. -/
theorem smart_poll_terminates_witness :
    ∃ o, (handle_smart_poll_result (some "key") none (some "req-1")
      (fun _ => PollEvent.ok [("status", Json.str "pending")])
      (fun n => 15 * n) 9).1 = some (.outcome o) :=
  smart_poll_terminates (some "key") none (some "req-1")
    (fun _ => PollEvent.ok [("status", Json.str "pending")])
    (fun n => 15 * n)
    (fun _ => rfl)
    (fun n => Nat.le_of_eq (by simp [poll_interval, Nat.mul_succ]))

/-- C4: a transient transport error (request timeout or connection error) at
elapsed time at or past `max_duration` returns a terminal error outcome —
a constructor distinct from the timeout-pending outcome — wrapping the
transport error; below the deadline the loop sleeps `poll_interval` and
retries; and a transient error is never itself terminal: a ConnectionError
followed by a successful poll with `status: "failed"` yields the
terminal-failure outcome (main.py 387-391). -/
theorem transient_error_policy (rid msg : String) (data : Dict) (el : Nat)
    (elapsed : Nat → Nat) :
    (max_duration ≤ el →
      pollStep rid (.requestError msg) el = .done (.outcome (.requestErrorAfterTimeout msg)))
    ∧ (el < max_duration →
        pollStep rid (.requestError msg) el = .again
        ∧ stepEffects (pollStep rid (.requestError msg) el)
            = [Effect.netGet, Effect.sleep poll_interval])
    ∧ (∀ D, PollOutcome.requestErrorAfterTimeout msg ≠ PollOutcome.timeoutPending D)
    ∧ (elapsed 0 < max_duration → normStatus data = "failed" →
        (pollLoop rid
          (fun n => if n = 0 then PollEvent.requestError msg else PollEvent.ok data)
          elapsed 2 0).1 = some (.outcome (.terminal data))) := by
  refine ⟨fun h => by simp [pollStep, h], fun h => ?_, fun D h => by simp at h, fun h0 hs => ?_⟩
  · have hstep : pollStep rid (.requestError msg) el = .again := by
      simp [pollStep, Nat.not_le.mpr h]
    exact ⟨hstep, by simp [hstep, stepEffects]⟩
  · have h1 : pollStep rid (.requestError msg) (elapsed 0) = .again := by
      simp [pollStep, Nat.not_le.mpr h0]
    have h2 : pollStep rid (.ok data) (elapsed 1) = .done (.outcome (.terminal data)) :=
      pollStep_terminal rid data (elapsed 1) (by simp [isTerminalStatus, hs])
    simp [pollLoop, h1, h2]

/-- C4 witness: a ConnectionError at 0 s elapsed is retried (not terminal),
the same error at 120 s yields the terminal error outcome, and the scripted
ConnectionError-then-failed adapter yields the terminal-failure outcome. -/
theorem transient_error_policy_witness :
    pollStep "req-1" (.requestError "conn refused") 120
      = .done (.outcome (.requestErrorAfterTimeout "conn refused"))
    ∧ pollStep "req-1" (.requestError "conn refused") 0 = .again
    ∧ (pollLoop "req-1"
        (fun n => if n = 0 then PollEvent.requestError "conn refused"
                  else PollEvent.ok [("status", Json.str "failed")])
        (fun n => 15 * n) 2 0).1
      = some (.outcome (.terminal [("status", Json.str "failed")])) :=
  ⟨(transient_error_policy "req-1" "conn refused" [] 120 (fun n => 15 * n)).1 (by decide),
   ((transient_error_policy "req-1" "conn refused" [] 0 (fun n => 15 * n)).2.1 (by decide)).1,
   (transient_error_policy "req-1" "conn refused" [("status", Json.str "failed")] 0
      (fun n => 15 * n)).2.2.2 (by decide) (by decide)⟩

/-- C5: an HTTP status error (status >= 400) makes the loop return an error
outcome immediately: no retry, no sleep, only the single GET of that
iteration, regardless of the remaining time budget (main.py 385-386). -/
theorem status_error_immediate (rid text : String) (code el : Nat) :
    pollStep rid (.statusError code text) el = .done (.outcome (.apiError code text))
    ∧ stepEffects (pollStep rid (.statusError code text) el) = [Effect.netGet] :=
  ⟨rfl, rfl⟩

/-- C6 counterexample: the claim says a status differing from a terminal word
only by surrounding whitespace is classified as that terminal status; but the
code never trims, so `" SUCCESS "` polled at the deadline yields the
timeout-pending outcome, not the terminal one. -/
theorem whitespace_status_not_terminal :
    pollStep "req-1" (.ok [("status", Json.str " SUCCESS ")]) 120
      = .done (.outcome (.timeoutPending
          [("request_id", Json.str "req-1"),
           ("status", Json.str " SUCCESS "),
           ("progress", Json.num 0),
           ("result_url", Json.str ""),
           ("effect_type", Json.str ""),
           ("message", Json.str "Task is still processing, please call this tool again")])) :=
  rfl

/-- C6 amended: the status field is stringified and lowercased (but never
trimmed) before classification; a missing status normalizes to the empty
string and is non-terminal; classification is case-insensitive, so a status
differing from success/completed/failed/error only in letter case is
terminal, while any other string — including one differing only by
surrounding whitespace — is treated as still processing. -/
theorem status_normalization_amended (rid : String) (data : Dict) (s : String) (el : Nat) :
    (Dict.get? data "status" = none → normStatus data = "")
    ∧ normStatus [("status", Json.str s)] = pyLower s
    ∧ (isTerminalStatus (pyLower s) = true →
        pollStep rid (.ok [("status", Json.str s)]) el
          = .done (.outcome (.terminal [("status", Json.str s)])))
    ∧ (isTerminalStatus (normStatus data) = false → el < max_duration →
        pollStep rid (.ok data) el = .again) := by
  refine ⟨fun h => ?_, rfl, fun h => ?_, fun h hel => pollStep_pending_of_lt rid data el h hel⟩
  · simp [normStatus, dget, h, pyStr, pyLower]
  · exact pollStep_terminal rid [("status", Json.str s)] el h

/-- C6 amended witness: a missing status normalizes to the empty string;
`"SUCCESS"` is classified terminal; the empty status keeps polling. -/
theorem status_normalization_amended_witness :
    normStatus [] = ""
    ∧ pollStep "req-1" (.ok [("status", Json.str "SUCCESS")]) 0
        = .done (.outcome (.terminal [("status", Json.str "SUCCESS")]))
    ∧ pollStep "req-1" (.ok []) 0 = .again :=
  ⟨(status_normalization_amended "req-1" [] "SUCCESS" 0).1 rfl,
   (status_normalization_amended "req-1" [] "SUCCESS" 0).2.2.1 (by decide),
   (status_normalization_amended "req-1" [] "SUCCESS" 0).2.2.2 (by decide) (by decide)⟩

/-- C3: when the request id is missing or empty, or no truthy credential is
available, `handle_smart_poll_result` returns a precondition-failure outcome
immediately, with no sleep (not even the 30 s initial delay) and no network
call (main.py 320-329: both checks precede the `asyncio.sleep(30)`). -/
theorem precondition_failure_immediate (stored env request_id : Option String)
    (events : Nat → PollEvent) (elapsed : Nat → Nat) (fuel : Nat)
    (h : truthy (get_api_key stored env) = false ∨ truthy request_id = false) :
    ∃ p, handle_smart_poll_result stored env request_id events elapsed fuel
        = (some (.outcome p), [])
      ∧ (p = PollOutcome.preconditionNoKey ∨ p = PollOutcome.preconditionNoRequestId) := by
  cases hk : truthy (get_api_key stored env) with
  | false =>
    exact ⟨.preconditionNoKey, by simp [handle_smart_poll_result, hk], Or.inl rfl⟩
  | true =>
    have hr : truthy request_id = false := by
      rcases h with h | h
      · rw [hk] at h; exact absurd h (by simp)
      · exact h
    exact ⟨.preconditionNoRequestId, by simp [handle_smart_poll_result, hk, hr], Or.inr rfl⟩

/-- C3 witness: with no stored key and no environment key, the handler
returns the precondition outcome with an empty effect trace, whatever the
adapter would have answered. -/
theorem precondition_failure_immediate_witness :
    ∃ p, handle_smart_poll_result none none (some "req-1")
        (fun _ => PollEvent.badJson) (fun _ => 0) 9
        = (some (.outcome p), [])
      ∧ (p = PollOutcome.preconditionNoKey ∨ p = PollOutcome.preconditionNoRequestId) :=
  precondition_failure_immediate none none (some "req-1")
    (fun _ => PollEvent.badJson) (fun _ => 0) 9 (Or.inl rfl)

/-- C7 counterexample: the claim says no exception ever escapes the handler,
even on malformed bodies; but a non-JSON body makes `response.json()` raise
`json.JSONDecodeError`, which neither `except httpx.HTTPStatusError` nor
`except httpx.RequestError` catches, so it escapes the handler unhandled. -/
theorem malformed_body_raises :
    (handle_smart_poll_result (some "key") none (some "req-1")
        (fun _ => PollEvent.badJson) (fun _ => 0) 9).1
      = some (.raised .jsonDecodeError) := rfl

/-- C7 amended: transport errors, HTTP status errors and precondition
failures are each mapped to a single caller-visible outcome and no iteration
on such events raises; but a malformed body — non-JSON (JSONDecodeError from
`response.json()`) or non-object JSON (AttributeError from `data.get`) —
raises an exception that escapes the handler unhandled. -/
theorem error_propagation_amended (rid : String) (el : Nat) :
    (∀ ev, isGoodEvent ev = true → ∀ e, pollStep rid ev el ≠ .done (.raised e))
    ∧ pollStep rid .badJson el = .done (.raised .jsonDecodeError)
    ∧ (∀ j, pollStep rid (.nonObject j) el = .done (.raised (.attributeError j))) :=
  ⟨fun ev hg => pollStep_no_raise rid ev el hg, rfl, fun _ => rfl⟩

/-- C7 amended witness: a well-formed pending body at 0 s does not raise,
while a non-JSON body does. -/
theorem error_propagation_amended_witness :
    pollStep "req-1" (.ok [("status", Json.str "pending")]) 0
      ≠ .done (.raised .jsonDecodeError) :=
  (error_propagation_amended "req-1" 0).1
    (.ok [("status", Json.str "pending")]) rfl Escaped.jsonDecodeError

/-- C8 counterexample: the claim says a non-numeric progress value is coerced
to 0; but the code stores `data.get("progress", 0)` unchanged, so a string
progress `"abc"` survives into the timeout-pending response instead of
becoming 0. -/
theorem nonnumeric_progress_passthrough :
    (pollStep "req-1"
        (.ok [("status", Json.str "pending"), ("progress", Json.str "abc")]) 120
      = .done (.outcome (.timeoutPending
          [("request_id", Json.str "req-1"),
           ("status", Json.str "pending"),
           ("progress", Json.str "abc"),
           ("result_url", Json.str ""),
           ("effect_type", Json.str ""),
           ("message", Json.str "Task is still processing, please call this tool again")])))
    ∧ Json.str "abc" ≠ Json.num 0 :=
  ⟨rfl, fun h => Json.noConfusion h⟩

theorem normStatus_progress_cons (p : Json) (fields : Dict) :
    normStatus (("progress", p) :: fields) = normStatus fields := by
  simp [normStatus, dget, get?_cons_of_ne "progress" "status" p fields rfl]

/-- C8 amended: a missing progress field defaults to 0; a non-numeric
progress value is passed through unchanged and never causes a failure (no
body makes the iteration raise); and the progress value never by itself
drives the loop's decision — two bodies differing only in their progress
value take the same branch (terminal / timeout / keep polling). -/
theorem progress_handling_amended (rid : String) (data fields : Dict) (p q : Json)
    (el : Nat) :
    (Dict.get? data "progress" = none → progressOf data = Json.num 0)
    ∧ (∀ e, pollStep rid (.ok data) el ≠ .done (.raised e))
    ∧ stepTag (pollStep rid (.ok (("progress", p) :: fields)) el)
        = stepTag (pollStep rid (.ok (("progress", q) :: fields)) el) := by
  refine ⟨fun h => by simp [progressOf, dget, h], pollStep_no_raise rid _ el rfl, ?_⟩
  have hp := normStatus_progress_cons p fields
  have hq := normStatus_progress_cons q fields
  by_cases h1 : isTerminalStatus (normStatus fields) = true
  · rw [pollStep_terminal rid _ el (by rw [hp]; exact h1),
      pollStep_terminal rid _ el (by rw [hq]; exact h1)]
    rfl
  · have h1f : isTerminalStatus (normStatus fields) = false := by simpa using h1
    by_cases hel : max_duration ≤ el
    · unfold isTerminalStatus at h1f
      cases e1 : (normStatus fields == "success") <;>
        cases e2 : (normStatus fields == "completed") <;>
          cases e3 : (normStatus fields == "failed") <;>
            cases e4 : (normStatus fields == "error") <;>
              simp_all [pollStep, hp, hq, hel, stepTag]
    · rw [pollStep_pending_of_lt rid _ el (by rw [hp]; exact h1f) (Nat.not_le.mp hel),
        pollStep_pending_of_lt rid _ el (by rw [hq]; exact h1f) (Nat.not_le.mp hel)]

/-- C8 amended witness: a body without a progress field gets progress 0, and
string versus numeric progress values lead to the same branch decision. -/
theorem progress_handling_amended_witness :
    progressOf [("status", Json.str "x")] = Json.num 0
    ∧ stepTag (pollStep "req-1"
        (.ok [("progress", Json.str "abc"), ("status", Json.str "pending")]) 0)
      = stepTag (pollStep "req-1"
        (.ok [("progress", Json.num 7), ("status", Json.str "pending")]) 0) :=
  ⟨(progress_handling_amended "req-1" [("status", Json.str "x")]
      [("status", Json.str "pending")] (Json.str "abc") (Json.num 7) 0).1 rfl,
   (progress_handling_amended "req-1" [("status", Json.str "x")]
      [("status", Json.str "pending")] (Json.str "abc") (Json.num 7) 0).2.2⟩

/-- C9: `parse_generate_response` is idempotent on already-normalized flat
payloads — on a dict with exactly the keys request_id, status, result,
progress (so in particular no `data` key) it leaves every field unchanged
and a second application is a no-op — and on a nested payload whose `data`
field is an object it reads request_id, status, result and progress from the
inner object in preference to the top level, preserving the outer status
under the distinct key `status_code` (main.py 439-462). -/
theorem parse_generate_response_idempotent_nested
    (d outer nested : Dict) (v1 v2 v3 v4 w1 w2 w3 w4 sc : Json) :
    (Dict.get? d "data" = none →
      parse_generate_response (parse_generate_response d) = parse_generate_response d
      ∧ (Dict.get? d "request_id" = some v1 → Dict.get? d "status" = some v2 →
         Dict.get? d "result" = some v3 → Dict.get? d "progress" = some v4 →
           Dict.get? (parse_generate_response d) "request_id" = some v1
           ∧ Dict.get? (parse_generate_response d) "status" = some v2
           ∧ Dict.get? (parse_generate_response d) "result" = some v3
           ∧ Dict.get? (parse_generate_response d) "progress" = some v4))
    ∧ (Dict.get? outer "data" = some (Json.obj nested) →
       Dict.get? nested "request_id" = some w1 → Dict.get? nested "status" = some w2 →
       Dict.get? nested "result" = some w3 → Dict.get? nested "progress" = some w4 →
       Dict.get? outer "status" = some sc →
         parse_generate_response outer =
           [("request_id", w1), ("status", w2), ("result", w3),
            ("progress", w4), ("status_code", sc)]) := by
  constructor
  · intro hd
    have hflat : parse_generate_response d =
        [("request_id", dget d "request_id" (Json.str "")),
         ("status", dget d "status" (Json.str "")),
         ("result", dget d "result" (Json.str "")),
         ("progress", dget d "progress" (Json.num 0))] := by
      rw [parse_generate_response, hd]
    constructor
    · rw [hflat]
      rw [parse_generate_response]
      simp [Dict.get?, dget]
    · intro h1 h2 h3 h4
      rw [hflat]
      simp only [Dict.get?] at h1 h2 h3 h4
      simp [Dict.get?, dget, h1, h2, h3, h4]
  · intro hd h1 h2 h3 h4 hsc
    rw [parse_generate_response, hd]
    simp [dget, h1, h2, h3, h4, hsc]

/-- C9 witness: a concrete flat payload is left unchanged, and a concrete
nested payload is unwrapped with the outer status kept as `status_code`. -/
theorem parse_generate_response_idempotent_nested_witness :
    (Dict.get? (parse_generate_response
        [("request_id", Json.str "r1"), ("status", Json.str "pending"),
         ("result", Json.str "u"), ("progress", Json.num 40)]) "status"
      = some (Json.str "pending"))
    ∧ parse_generate_response
        [("status", Json.num 1),
         ("data", Json.obj
           [("request_id", Json.str "r2"), ("status", Json.str "done"),
            ("result", Json.str "url"), ("progress", Json.num 100)])]
      = [("request_id", Json.str "r2"), ("status", Json.str "done"),
         ("result", Json.str "url"), ("progress", Json.num 100),
         ("status_code", Json.num 1)] :=
  ⟨(((parse_generate_response_idempotent_nested
      [("request_id", Json.str "r1"), ("status", Json.str "pending"),
       ("result", Json.str "u"), ("progress", Json.num 40)]
      [] [] (Json.str "r1") (Json.str "pending") (Json.str "u") (Json.num 40)
      Json.null Json.null Json.null Json.null Json.null).1 rfl).2
      rfl rfl rfl rfl).2.1,
   (parse_generate_response_idempotent_nested [] 
      [("status", Json.num 1),
       ("data", Json.obj
         [("request_id", Json.str "r2"), ("status", Json.str "done"),
          ("result", Json.str "url"), ("progress", Json.num 100)])]
      [("request_id", Json.str "r2"), ("status", Json.str "done"),
       ("result", Json.str "url"), ("progress", Json.num 100)]
      Json.null Json.null Json.null Json.null
      (Json.str "r2") (Json.str "done") (Json.str "url") (Json.num 100)
      (Json.num 1)).2 rfl rfl rfl rfl rfl rfl⟩

/-- C10: credential resolution is process-wide shared state with fixed
precedence — after `set_api_key` stored a non-empty key, `get_api_key`
returns it and ignores the environment variable; with no stored key (or an
empty one) it falls back to the environment, `none` if that is absent too —
and every credential-using tool handler resolves its credential through
`get_api_key` alone: two credential states that `get_api_key` maps to the
same value are indistinguishable to every handler. -/
theorem api_key_precedence (k : String) (stored env s2 e2 : Option String) :
    (k ≠ "" → get_api_key (set_api_key k) env = some k)
    ∧ get_api_key none env = env
    ∧ get_api_key (some "") env = env
    ∧ (get_api_key stored env = get_api_key s2 e2 →
        (∀ request_id events elapsed fuel,
          handle_smart_poll_result stored env request_id events elapsed fuel
            = handle_smart_poll_result s2 e2 request_id events elapsed fuel)
        ∧ handle_get_visual_effects_headers stored env
            = handle_get_visual_effects_headers s2 e2
        ∧ handle_generate_with_effect_gate stored env
            = handle_generate_with_effect_gate s2 e2
        ∧ handle_generate_custom_advanced_gate stored env
            = handle_generate_custom_advanced_gate s2 e2) := by
  refine ⟨fun h => ?_, rfl, ?_, fun h => ⟨fun rid events elapsed fuel => ?_, ?_, ?_, ?_⟩⟩
  · simp [get_api_key, set_api_key, truthy, h]
  · simp [get_api_key, truthy]
  · simp only [handle_smart_poll_result, h]
  · simp only [handle_get_visual_effects_headers, h]
  · simp only [handle_generate_with_effect_gate, h]
  · simp only [handle_generate_custom_advanced_gate, h]

/-- C10 witness: a stored key `"abc"` wins over the environment variable, and
two environments that resolve to the same credential give the same headers. -/
theorem api_key_precedence_witness :
    get_api_key (set_api_key "abc") (some "from-env") = some "abc"
    ∧ handle_get_visual_effects_headers (some "k1") (some "e1")
        = handle_get_visual_effects_headers (some "k1") (some "e2") :=
  ⟨(api_key_precedence "abc" none none none none).1 (by decide),
   ((api_key_precedence "abc" (some "k1") (some "e1") (some "k1") (some "e2")).2.2.2
      rfl).2.1⟩
